import Mathlib

set_option maxRecDepth 8192

/-!
Verification development for the Gmail-to-Dropbox backup engine
(source: backup.py).  The definitions below are shallow embeddings of the
source functions: the rate limiter (class RateLimiter), the destination
path construction (_safe_filename_component, make_dropbox_path,
dropbox_upload_to_team_folder), the content indexer (index_email,
process_one_message), the search query engine (search_emails) and the
per-account crawl loop with checkpointing (backup_user).  Machine
integers are modelled as Nat; env-configured parameters are passed as
explicit arguments; the external Dropbox upload endpoint is modelled by
the files_upload contract the source invokes (WriteMode add with
autorename), alongside the putIfAbsent contract the specification
assigns to the object store.
-/

namespace HanniBackup

/-! ## Rate limiter (backup.py, class RateLimiter)

The limiter keeps a consecutive-error counter.  `handle_rate_limit_error`
(source lines 1196-1216) increments it, picks a wait time, sleeps that
long, and reports whether the caller should retry.  We model the call as
a pure function returning the new limiter state, the number of seconds
slept, and the boolean result.  In the source, `retry_after` arrives as
an optional integer and is used through Python truthiness, so a hint of
0 behaves like no hint at all. -/

structure RateLimiter where
  consecutive_errors : Nat
deriving Repr, DecidableEq

/-- Wait time chosen by handle_rate_limit_error: the retry-after hint
when present and nonzero, otherwise exponential backoff
min(2 ^ errors, 512), matching the source's
`wait_time = retry_after if retry_after else min(2 ** self.consecutive_errors, 512)`. -/
def waitTime (errs : Nat) (retry_after : Option Nat) : Nat :=
  match retry_after with
  | some r => if r = 0 then min (2 ^ errs) 512 else r
  | none => min (2 ^ errs) 512

/-- Embedding of RateLimiter.handle_rate_limit_error.  `maxRetries` is
the env-configured MAX_RETRIES (default 10).  Returns (new state,
seconds slept, shouldRetry). -/
def handle_rate_limit_error (maxRetries : Nat) (rl : RateLimiter)
    (retry_after : Option Nat) : RateLimiter × Nat × Bool :=
  let errs := rl.consecutive_errors + 1
  ({ consecutive_errors := errs }, waitTime errs retry_after,
    decide (errs < maxRetries))

/-- Embedding of RateLimiter.reset_error_count (source lines 1218-1222). -/
def reset_error_count (rl : RateLimiter) : RateLimiter :=
  { rl with consecutive_errors := 0 }

/-- Limiter state after n consecutive quota errors (no intervening
success), starting from a fresh limiter, with no retry-after hints. -/
def errorsAfter (maxRetries : Nat) : Nat → RateLimiter
  | 0 => { consecutive_errors := 0 }
  | n + 1 => (handle_rate_limit_error maxRetries (errorsAfter maxRetries n) none).1

/-- Seconds slept on the (n+1)-st consecutive hint-free quota error. -/
def nthWait (maxRetries : Nat) (n : Nat) : Nat :=
  (handle_rate_limit_error maxRetries (errorsAfter maxRetries n) none).2.1

/-! ## Idempotent transfer layer: destination paths

Embeddings of _safe_filename_component (source lines 1405-1424),
make_dropbox_path (lines 1426-1444), the team-path construction inside
dropbox_upload_to_team_folder (lines 437-481), and the upload itself.
Strings are manipulated as their character lists. -/

/-- Replacement for control characters, modelling
re.sub of the class of bytes 00-1f and 7f with an underscore. -/
def replCtl (c : Char) : Char :=
  if c.toNat ≤ 0x1f ∨ c.toNat = 0x7f then '_' else c

/-- Characters the source replaces with an underscore (backslash, slash,
colon, star, question mark, double quote, angle brackets, pipe). -/
def isUnsafeChar (c : Char) : Bool :=
  c = '\\' ∨ c = '/' ∨ c = ':' ∨ c = '*' ∨ c = '?' ∨ c = '\"' ∨
    c = '<' ∨ c = '>' ∨ c = '|'

/-- Collapse runs of spaces to a single space (re.sub of one-or-more
whitespace with one space, after whitespace has been mapped to spaces). -/
def squeezeSpaces : List Char → List Char
  | [] => []
  | [c] => [c]
  | a :: b :: rest =>
      if a = ' ' ∧ b = ' ' then squeezeSpaces (b :: rest)
      else a :: squeezeSpaces (b :: rest)

/-- Drop leading and trailing occurrences of a character (str.strip). -/
def stripChar (c : Char) (l : List Char) : List Char :=
  ((l.dropWhile (· = c)).reverse.dropWhile (· = c)).reverse

/-- Longest prefix whose total UTF-8 byte length is at most maxB.  This
is what the source's byte-truncate-then-drop-until-decodable loop
computes. -/
def utf8Truncate (maxB : Nat) : List Char → List Char
  | [] => []
  | c :: rest =>
      if c.utf8Size ≤ maxB then c :: utf8Truncate (maxB - c.utf8Size) rest
      else []

/-- Total UTF-8 byte length of a string (len of s.encode in the source). -/
def utf8ByteLen (s : String) : Nat :=
  s.data.foldr (fun c n => c.utf8Size + n) 0

/-- Embedding of _safe_filename_component: control characters become
underscores, whitespace runs collapse to single spaces and are stripped
at the ends, filesystem-unsafe characters become underscores, and the
result is truncated to at most maxBytes UTF-8 bytes. -/
def safeFilenameComponent (s : String) (maxBytes : Nat) : String :=
  let l1 := s.data.map replCtl
  let l2 := stripChar ' '
    (squeezeSpaces (l1.map (fun c => if c.isWhitespace then ' ' else c)))
  let l3 := l2.map (fun c => if isUnsafeChar c then '_' else c)
  String.mk (utf8Truncate maxBytes l3)

/-- Gregorian civil date (year, month, day) of a day count since
1970-01-01, the standard era-based algorithm; models what
datetime.fromtimestamp(-, utc).strftime computes for the date part. -/
def civilFromDays (days : Nat) : Nat × Nat × Nat :=
  let z := days + 719468
  let era := z / 146097
  let doe := z % 146097
  let yoe := (doe - doe / 1460 + doe / 36524 - doe / 146096) / 365
  let y0 := yoe + era * 400
  let doy := doe - (365 * yoe + yoe / 4 - yoe / 100)
  let mp := (5 * doy + 2) / 153
  let d := doy - (153 * mp + 2) / 5 + 1
  let m := if mp < 10 then mp + 3 else mp - 9
  (if m ≤ 2 then y0 + 1 else y0, m, d)

/-- Left-pad a decimal numeral with zeros to two digits (strftime %m,
%d, %H, %M, %S). -/
def pad2 (n : Nat) : String :=
  if n < 10 then "0" ++ toString n else toString n

/-- Left-pad a decimal numeral with zeros to four digits (strftime %Y). -/
def pad4 (n : Nat) : String :=
  if n < 10 then "000" ++ toString n
  else if n < 100 then "00" ++ toString n
  else if n < 1000 then "0" ++ toString n
  else toString n

/-- Date and time-of-day components (UTC) of an epoch-milliseconds
timestamp. -/
def civilFromMs (ts_ms : Nat) : Nat × Nat × Nat × Nat × Nat × Nat :=
  let secs := ts_ms / 1000
  let (y, m, d) := civilFromDays (secs / 86400)
  (y, m, d, secs % 86400 / 3600, secs % 3600 / 60, secs % 60)

/-- Timestamp part of the filename, strftime of the pattern
%Y%m%d_%H%M%S. -/
def stampOfMs (ts_ms : Nat) : String :=
  let (y, m, d, hh, mi, ss) := civilFromMs ts_ms
  pad4 y ++ pad2 m ++ pad2 d ++ "_" ++ pad2 hh ++ pad2 mi ++ pad2 ss

/-- Embedding of make_dropbox_path: deterministic destination path
partitioned by year/month/day, with a filename built from the timestamp
and a length-bounded slug of the subject, falling back to a slug of the
message id (or the literal string message) when the subject slug is
empty. -/
def make_dropbox_path (internal_ts_ms : Nat) (subject_hint : String)
    (msg_id : String) : String :=
  let c := civilFromMs internal_ts_ms
  let y := c.1
  let m := c.2.1
  let d := c.2.2.1
  let hint0 := safeFilenameComponent subject_hint 120
  let hint := if hint0 = "" then
      safeFilenameComponent (if msg_id = "" then "message" else msg_id) 32
    else hint0
  let filename0 := stampOfMs internal_ts_ms ++ "_" ++ hint ++ ".eml"
  let filename := if 200 < utf8ByteLen filename0 then
      stampOfMs internal_ts_ms ++ "_" ++ safeFilenameComponent hint 80 ++ ".eml"
    else filename0
  "/" ++ pad4 y ++ "/" ++ pad2 m ++ "/" ++ pad2 d ++ "/" ++ filename

/-- Split a character list on a separator character, keeping empty
segments, like str.split in the source. -/
def splitOnChar (sep : Char) : List Char → List Char → List (List Char)
  | [], acc => [acc.reverse]
  | x :: xs, acc =>
      if x = sep then acc.reverse :: splitOnChar sep xs []
      else splitOnChar sep xs (x :: acc)

/-- Path components of path.strip of slashes followed by split on slash
(source line 439). -/
def pathParts (p : String) : List String :=
  (splitOnChar '/' (stripChar '/' p.data) []).map String.mk

/-- Check that a component is all decimal digits of the given length,
the source's date-structure validation (lines 451-453). -/
def digitsOfLen (n : Nat) (s : String) : Bool :=
  s.data.length = n ∧ s.data.all Char.isDigit

/-- The last path component, or the source's fallback literal when the
part list is empty (line 470). -/
def lastPart (parts : List String) : String :=
  (parts.getLast?).getD "email.eml"

/-- Embedding of the team-path construction in
dropbox_upload_to_team_folder for the namespace-root configuration the
deployment uses (DROPBOX_TEAM_NAMESPACE set, so paths are relative to
the team folder): a path shaped /YYYY/MM/DD/filename maps to
/user/YYYY/MM/DD/filename, anything else to /user/lastComponent. -/
def teamPath (user_email path : String) : String :=
  match pathParts path with
  | y :: m :: d :: filename :: rest =>
      if digitsOfLen 4 y ∧ digitsOfLen 2 m ∧ digitsOfLen 2 d then
        "/" ++ user_email ++ "/" ++ y ++ "/" ++ m ++ "/" ++ d ++ "/" ++ filename
      else
        "/" ++ user_email ++ "/" ++ lastPart (y :: m :: d :: filename :: rest)
  | parts => "/" ++ user_email ++ "/" ++ lastPart parts

/-- Object store contents, as the set (list without meaning in the
order) of destination paths that exist. -/
abbrev ObjStore := List String

/-- Split a filename-bearing path at its last dot into stem and
extension (the extension keeps its dot; both empty-extension when no
dot occurs). -/
def splitExt (p : String) : String × String :=
  let cs := p.data
  let afterDot := (cs.reverse.takeWhile (fun c => c ≠ '.')).length
  if afterDot = cs.length then (p, "")
  else (String.mk (cs.take (cs.length - afterDot - 1)),
        String.mk (cs.drop (cs.length - afterDot - 1)))

/-- The k-th autorename candidate the Dropbox server tries on a name
conflict: a number appended to the file name before the extension,
document.eml becoming document (k).eml. -/
def renamedPath (path : String) (k : Nat) : String :=
  let se := splitExt path
  se.1 ++ " (" ++ toString k ++ ")" ++ se.2

/-- First autorename candidate not already present in the store,
searching k = 1, 2, ... with enough fuel to pass every occupied
name. -/
def freshRenamedAux (store : ObjStore) (path : String) : Nat → Nat → String
  | 0, k => renamedPath path k
  | fuel + 1, k =>
      if renamedPath path k ∈ store then
        freshRenamedAux store path fuel (k + 1)
      else renamedPath path k

/-- Autorenamed destination chosen by the server on a conflict. -/
def freshRenamed (store : ObjStore) (path : String) : String :=
  freshRenamedAux store path (store.length + 1) 1

/-- Modelled from the Dropbox files_upload contract that the source
invokes (source lines 487-493: files_upload with WriteMode add,
autorename True, mute True): WriteMode add does not overwrite an
existing file, and with autorename requested a name conflict does not
raise an error — the server stores the new upload under a numbered
variant of the name and the call succeeds.  Returns the new store and
the path actually written. -/
def files_upload_add_autorename (store : ObjStore) (path : String) :
    ObjStore × String :=
  if path ∈ store then
    let renamed := freshRenamed store path
    (renamed :: store, renamed)
  else (path :: store, path)

/-- Embedding of dropbox_upload_to_team_folder (source lines 426-581):
build the team path and upload via files_upload with WriteMode add and
autorename True; a completed upload returns True.  Because autorename
is requested, a same-path re-upload never raises the conflict ApiError
that the already_exists branch (lines 527-531) would turn into a
skip-with-success — the server renames the new upload instead, and the
call reports success through the normal return at line 498.
Transport-level failure branches of the source (SSL retries, auth
errors, missing parent folders, the requests fallback — which also
sends autorename true) return False or re-raise and are side
conditions not exercised by the claims; the model covers the completed
call. -/
def dropbox_upload_to_team_folder (store : ObjStore)
    (user_email path : String) : ObjStore × Bool :=
  let tp := teamPath user_email path
  ((files_upload_add_autorename store tp).1, true)

/-! ## Content indexer and index records

Embeddings of the email_index row (init_email_index, source lines
662-697), index_email (lines 766-809) and process_one_message (lines
1457-1485).  Raw message bytes are a list of byte values; the external
email-library parse (parse_email_metadata, which returns an empty dict
on any parse exception) is abstracted as a function returning an
optional metadata record, since no claim depends on MIME internals. -/

/-- Raw message bytes. -/
abbrev Raw := List Nat

/-- Metadata extracted by parse_email_metadata on success. -/
structure EmailMeta where
  message_id : String
  subject : String
  sender : String
  recipients : String
  date_str : String
  has_attachments : Bool
  attachment_names : String
  body_preview : String
  labels : String
  size_bytes : Nat
deriving Repr, DecidableEq

/-- One row of the email_index table. -/
structure IndexRecord where
  id : String
  user_email : String
  message_id : String
  subject : String
  sender : String
  recipients : String
  date : Nat
  date_str : String
  has_attachments : Bool
  attachment_names : String
  size_bytes : Nat
  dropbox_path : String
  body_preview : String
  labels : String
deriving Repr, DecidableEq

/-- The index store: the rows of the email_index table. -/
abbrev IndexStore := List IndexRecord

/-- INSERT OR REPLACE keyed by the primary key id and the unique
(user_email, message_id) pair: any previous row with the same key is
replaced. -/
def upsertRecord (store : IndexStore) (r : IndexRecord) : IndexStore :=
  r :: store.filter (fun x =>
    decide (¬ (x.id = r.id ∨
      (x.user_email = r.user_email ∧ x.message_id = r.message_id))))

/-- ISO-style date string recorded alongside the numeric timestamp. -/
def isoOfMs (ts_ms : Nat) : String :=
  let (y, m, d, hh, mi, ss) := civilFromMs ts_ms
  pad4 y ++ "-" ++ pad2 m ++ "-" ++ pad2 d ++ "T" ++
    pad2 hh ++ ":" ++ pad2 mi ++ ":" ++ pad2 ss ++ "+00:00"

/-- Embedding of index_email: parse the raw message and upsert the row;
when parsing fails (parse_email_metadata returned an empty dict, or any
exception was swallowed by the catch-all handler) the store is left
unchanged and no error escapes. -/
def index_email (parse : Raw → Option EmailMeta) (store : IndexStore)
    (user_email msg_id : String) (raw_bytes : Raw) (dropbox_path : String)
    (timestamp_ms : Nat) : IndexStore :=
  match parse raw_bytes with
  | none => store
  | some md => upsertRecord store
      { id := user_email ++ ":" ++ msg_id
        user_email := user_email
        message_id := msg_id
        subject := md.subject
        sender := md.sender
        recipients := md.recipients
        date := timestamp_ms
        date_str := isoOfMs timestamp_ms
        has_attachments := md.has_attachments
        attachment_names := md.attachment_names
        size_bytes := md.size_bytes
        dropbox_path := dropbox_path
        body_preview := md.body_preview
        labels := md.labels }

/-- Embedding of process_one_message for the default configuration
(DRY_RUN off, INDEX_EMAILS on, namespace root in use).  The subject
hint extraction from the raw bytes is abstracted as subjOf.  Returns
the timestamp handed back to the crawl loop (0 signals failure there)
together with the updated object and index stores.  Note that when the
upload reports success the message is indexed, and indexing failures
cannot change the returned timestamp. -/
def process_one_message (parse : Raw → Option EmailMeta)
    (subjOf : Raw → String) (ostore : ObjStore) (istore : IndexStore)
    (user_email msg_id : String) (raw_bytes : Raw) (ts_ms : Nat) :
    Nat × ObjStore × IndexStore :=
  if raw_bytes.isEmpty then (0, ostore, istore)
  else
    let dbx_path := make_dropbox_path ts_ms (subjOf raw_bytes) msg_id
    let up := dropbox_upload_to_team_folder ostore user_email dbx_path
    if up.2 then
      let full_dbx_path := "/" ++ user_email ++ dbx_path
      (ts_ms, up.1,
        index_email parse istore user_email msg_id raw_bytes full_dbx_path ts_ms)
    else (ts_ms, up.1, istore)

/-! ## Search query engine (search_emails, source lines 814-889)

The SQL query is a conjunction of the provided filters, ordered by the
date column descending, limited to the given row count.  SQL LIKE with
percent wildcards on both sides is substring matching, case-insensitive
for ASCII in SQLite; date strings are converted to epoch milliseconds
at midnight of the given day, which we model by passing the day number
and multiplying by the milliseconds in a day.  Optional text filters go
through Python truthiness, so an empty string behaves like an absent
filter. -/

/-- Substring test on character lists. -/
def containsSub (hay pat : List Char) : Bool :=
  match hay with
  | [] => pat.isEmpty
  | _ :: t => pat.isPrefixOf hay || containsSub t pat

/-- ASCII lowercasing, the alphabet for which SQLite LIKE is
case-insensitive. -/
def lowerAscii (c : Char) : Char :=
  if 65 ≤ c.toNat ∧ c.toNat ≤ 90 then Char.ofNat (c.toNat + 32) else c

/-- SQL LIKE with wildcards on both sides: substring match,
case-insensitive over ASCII. -/
def likeMatch (field pat : String) : Bool :=
  containsSub (field.data.map lowerAscii) (pat.data.map lowerAscii)

/-- Milliseconds at UTC midnight of a day given as days since the
epoch; models int(datetime.fromisoformat(dateString).timestamp() * 1000)
for a plain YYYY-MM-DD string (source lines 861 and 866). -/
def dateStartMs (day : Nat) : Nat := day * 86400000

/-- The filter arguments of search_emails.  Dates are day numbers since
the epoch. -/
structure SearchFilters where
  query : Option String := none
  user_email : Option String := none
  sender : Option String := none
  subject : Option String := none
  start_date : Option Nat := none
  end_date : Option Nat := none
  has_attachments : Option Bool := none
  limit : Nat := 100
deriving Repr, DecidableEq

/-- The WHERE clause of search_emails: the conjunction of every
provided filter (absent or empty-string filters impose nothing). -/
def matchesFilters (f : SearchFilters) (r : IndexRecord) : Bool :=
  (match f.query with
   | none => true
   | some q => q = "" ∨ (likeMatch r.subject q || likeMatch r.sender q ||
       likeMatch r.recipients q || likeMatch r.body_preview q)) &&
  (match f.user_email with
   | none => true
   | some u => u = "" ∨ r.user_email = u) &&
  (match f.sender with
   | none => true
   | some s => s = "" ∨ likeMatch r.sender s) &&
  (match f.subject with
   | none => true
   | some s => s = "" ∨ likeMatch r.subject s) &&
  (match f.start_date with
   | none => true
   | some d => dateStartMs d ≤ r.date) &&
  (match f.end_date with
   | none => true
   | some d => r.date ≤ dateStartMs d) &&
  (match f.has_attachments with
   | none => true
   | some b => r.has_attachments = b)

/-- Ordering used by ORDER BY date DESC. -/
def dateGe (a b : IndexRecord) : Prop := b.date ≤ a.date

instance : DecidableRel dateGe := fun a b => Nat.decLe b.date a.date

instance : IsTotal IndexRecord dateGe :=
  ⟨fun a b => le_total b.date a.date⟩

instance : IsTrans IndexRecord dateGe :=
  ⟨fun _ _ _ hab hbc => le_trans hbc hab⟩

/-- Embedding of search_emails over the rows of the index: filter by
the conjunctive WHERE clause, order by date descending, and cap at the
limit. -/
def search_emails (db : IndexStore) (f : SearchFilters) : List IndexRecord :=
  (List.insertionSort dateGe (db.filter (matchesFilters f))).take f.limit

/-! ## Crawl and checkpoint state machine (backup_user, source 1487-1692)

The persisted per-account state is the JSON dict written by save_state;
we model the keys the crawl uses.  The in-memory run state holds the
persisted snapshot (what a crash would leave behind, since save_state
rewrites the whole file) plus the loop variables.  The in-memory
processed set is modelled as a duplicate-free list in insertion order;
ids are only ever added.  The batch slicing of the message list
(range over the list in BATCH_SIZE steps) visits the messages in the
same order as the flat list and only inserts sleeps between batches,
so the per-message effect of the loop is a fold of the step function
over the message list. -/

/-- Persisted account state: the state-file keys backup_user reads and
writes.  A missing all_message_ids or processed_message_ids key is
modelled by the empty list together with backup_in_progress false. -/
structure SavedState where
  backup_in_progress : Bool := false
  all_message_ids : List String := []
  processed_message_ids : List String := []
  messages_processed : Nat := 0
  messages_downloaded : Nat := 0
  messages_failed : Nat := 0
  last_ts_ms : Nat := 0
deriving Repr, DecidableEq

/-- In-memory state of one backup_user run: the last persisted snapshot
plus the loop variables processed_ids, downloaded, failed,
messages_processed and latest_ts (source lines 1574-1577). -/
structure RunState where
  st : SavedState
  processed_ids : List String
  downloaded : Nat
  failed : Nat
  messages_processed : Nat
  latest_ts : Nat
deriving Repr, DecidableEq

/-- Last n elements of a list, the slice with a negative start index
used at the checkpoint (list(processed_ids)[-1000:]). -/
def lastN (n : Nat) (l : List String) : List String :=
  l.drop (l.length - n)

/-- Checkpoint write (source lines 1621-1639): copy the loop counters
into the persisted state, keeping only the last 1000 processed ids,
and save. -/
def checkpointSave (r : RunState) : SavedState :=
  { r.st with
    messages_processed := r.messages_processed
    messages_downloaded := r.downloaded
    messages_failed := r.failed
    last_ts_ms := r.latest_ts
    processed_message_ids := lastN 1000 r.processed_ids }

/-- Loop body for one message (source lines 1601-1643): skip ids already
processed; otherwise run process_one_message (its returned timestamp is
supplied by outcome, zero meaning failure), record success or failure,
and persist a checkpoint every interval processed-plus-failed
messages. -/
def stepMessage (interval : Nat) (outcome : String → Nat) (r : RunState)
    (msg_id : String) : RunState :=
  if msg_id ∈ r.processed_ids then r
  else
    let ts := outcome msg_id
    let r1 := if ts ≠ 0 then
        { r with
          latest_ts := max r.latest_ts ts
          downloaded := r.downloaded + 1
          processed_ids := r.processed_ids ++ [msg_id] }
      else { r with failed := r.failed + 1 }
    let r2 := { r1 with messages_processed := r1.messages_processed + 1 }
    if r2.messages_processed % interval = 0 then
      { r2 with st := checkpointSave r2 }
    else r2

/-- The transfer phase of the crawl: fold the loop body over the
message list. -/
def runCrawl (interval : Nat) (outcome : String → Nat) (ids : List String)
    (r : RunState) : RunState :=
  ids.foldl (stepMessage interval outcome) r

/-- Observation log of the crawl: the ids for which the loop actually
invokes process_one_message (everything not skipped by the
already-processed check), in order.  This mirrors the recursion of
runCrawl and is not extra state of the source. -/
def transferLog (interval : Nat) (outcome : String → Nat) :
    RunState → List String → List String
  | _, [] => []
  | r, msg_id :: rest =>
      if msg_id ∈ r.processed_ids then transferLog interval outcome r rest
      else msg_id ::
        transferLog interval outcome (stepMessage interval outcome r msg_id) rest

/-- Resume filtering (source lines 1538-1543): with an in-progress
state holding a cached message list, the ids to process are the cached
list minus the already-processed set. -/
def resumeRemaining (st : SavedState) : List String :=
  st.all_message_ids.filter (fun mid => decide (mid ∉ st.processed_message_ids))

/-- Run state at the start of a resumed crawl (source lines 1500-1511
and 1574-1577): the processed set is reloaded from the state file and
the counters continue from their saved values. -/
def resumeRunState (st : SavedState) : RunState :=
  { st := st
    processed_ids := st.processed_message_ids
    downloaded := st.messages_downloaded
    failed := st.messages_failed
    messages_processed := st.messages_processed
    latest_ts := st.last_ts_ms }

/-- Persisted state right after a fresh crawl has cached its listing
(source lines 1507-1511 and 1552-1554): in progress, with the
discovered ids stored and no processed ids yet. -/
def freshSavedState (ids : List String) : SavedState :=
  { backup_in_progress := true
    all_message_ids := ids }

/-- Run state at the start of a fresh crawl. -/
def freshRunState (ids : List String) : RunState :=
  { st := freshSavedState ids
    processed_ids := []
    downloaded := 0
    failed := 0
    messages_processed := 0
    latest_ts := 0 }

/-- Checkpoint state of the resumability scenario: an in-progress crawl
with discovered ids a, b, c, d, of which a and b are already
processed. -/
def c3Saved (a b c d : String) : SavedState :=
  { backup_in_progress := true
    all_message_ids := [a, b, c, d]
    processed_message_ids := [a, b]
    messages_processed := 2
    messages_downloaded := 2 }

/-- The ten discovered ids of the checkpointing scenario. -/
def c6ids : List String :=
  ["m1", "m2", "m3", "m4", "m5", "m6", "m7", "m8", "m9", "m10"]

/-- Crawl state of the checkpointing scenario right after the 7th
message, checkpoint interval 5, every message succeeding; a crash here
leaves exactly the persisted snapshot c6crash.st.  The batch size 4 of
the scenario only inserts inter-batch sleeps and does not affect the
per-message fold. -/
def c6crash : RunState :=
  runCrawl 5 (fun _ => 1) (c6ids.take 7) (freshRunState c6ids)

/-- A concrete duplicate-free list of 1001 distinct message ids. -/
def bigIdList : List String :=
  (List.range 1001).map fun n => String.mk (List.replicate n 'a')

/-- Indexed record matching the sender alice, timestamped on day 1. -/
def c7recA : IndexRecord :=
  { id := "u:1", user_email := "u@x.com", message_id := "1",
    subject := "hello", sender := "alice@x.com", recipients := "bob@x.com",
    date := 86400000, date_str := "", has_attachments := false,
    attachment_names := "", size_bytes := 10, dropbox_path := "",
    body_preview := "hi", labels := "" }

/-- Indexed record from a different sender, timestamped on day 2. -/
def c7recB : IndexRecord :=
  { id := "u:2", user_email := "u@x.com", message_id := "2",
    subject := "other", sender := "bob@x.com", recipients := "alice@x.com",
    date := 172800000, date_str := "", has_attachments := true,
    attachment_names := "a.pdf", size_bytes := 20, dropbox_path := "",
    body_preview := "bye", labels := "" }

/-- Search with a sender filter and a date range, as in the search
conjunction scenario. -/
def c7fil : SearchFilters :=
  { sender := some "alice", start_date := some 0, end_date := some 2 }

/-- Indexed record whose timestamp lies one hour into day 5. -/
def c8rec : IndexRecord :=
  { id := "u:m", user_email := "u@x.com", message_id := "m",
    subject := "s", sender := "alice@x.com", recipients := "",
    date := 5 * 86400000 + 3600000, date_str := "", has_attachments := false,
    attachment_names := "", size_bytes := 1, dropbox_path := "",
    body_preview := "", labels := "" }

/-- Indexed record whose timestamp lies two hours into day 4. -/
def c8rec2 : IndexRecord :=
  { id := "u:m2", user_email := "u@x.com", message_id := "m2",
    subject := "s", sender := "alice@x.com", recipients := "",
    date := 4 * 86400000 + 7200000, date_str := "", has_attachments := false,
    attachment_names := "", size_bytes := 1, dropbox_path := "",
    body_preview := "", labels := "" }

/-- Concrete nonempty raw message whose content will fail to parse. -/
def c9raw : Raw := [1, 2, 3]

/-! ## Helper lemmas -/

lemma errorsAfter_consecutive (maxRetries n : Nat) :
    (errorsAfter maxRetries n).consecutive_errors = n := by
  induction n with
  | zero => rfl
  | succ k ih => simp [errorsAfter, handle_rate_limit_error, ih]

lemma nthWait_eq (maxRetries n : Nat) :
    nthWait maxRetries n = min (2 ^ (n + 1)) 512 := by
  simp [nthWait, handle_rate_limit_error, waitTime, errorsAfter_consecutive]

lemma stepMessage_processed_ids (interval : Nat) (outcome : String → Nat)
    (r : RunState) (msg_id : String) :
    (stepMessage interval outcome r msg_id).processed_ids =
      if msg_id ∈ r.processed_ids then r.processed_ids
      else if outcome msg_id ≠ 0 then r.processed_ids ++ [msg_id]
      else r.processed_ids := by
  unfold stepMessage
  split
  · rfl
  · dsimp only
    split <;> split <;> rfl

lemma stepMessage_downloaded (interval : Nat) (outcome : String → Nat)
    (r : RunState) (msg_id : String) :
    (stepMessage interval outcome r msg_id).downloaded =
      if msg_id ∈ r.processed_ids then r.downloaded
      else if outcome msg_id ≠ 0 then r.downloaded + 1
      else r.downloaded := by
  unfold stepMessage
  split
  · rfl
  · dsimp only
    split <;> split <;> rfl

lemma stepMessage_failed (interval : Nat) (outcome : String → Nat)
    (r : RunState) (msg_id : String) :
    (stepMessage interval outcome r msg_id).failed =
      if msg_id ∈ r.processed_ids then r.failed
      else if outcome msg_id ≠ 0 then r.failed
      else r.failed + 1 := by
  unfold stepMessage
  split
  · rfl
  · dsimp only
    split <;> split <;> rfl

lemma utf8Truncate_byteLen (l : List Char) :
    ∀ maxB, ((utf8Truncate maxB l).foldr (fun c n => c.utf8Size + n) 0) ≤ maxB := by
  induction l with
  | nil => intro maxB; simp [utf8Truncate]
  | cons c rest ih =>
      intro maxB
      unfold utf8Truncate
      split
      · have := ih (maxB - c.utf8Size)
        simp only [List.foldr]
        omega
      · simp

/-- Byte-length bound for the filename slug. -/
lemma safeFilenameComponent_le (s : String) (maxBytes : Nat) :
    utf8ByteLen (safeFilenameComponent s maxBytes) ≤ maxBytes := by
  unfold safeFilenameComponent utf8ByteLen
  exact utf8Truncate_byteLen _ maxBytes

/-! ## Claims about the rate limiter -/

/-- Claim C4, counterexample.  The claim states that the quota-error
handler sleeps max(retryAfterHint, min(2 ^ errorCount, capSeconds)).
With two prior consecutive errors and a retry-after hint of 3, the
source sleeps exactly the hint, 3 seconds, while the claimed formula
gives max(3, min(2 ^ 3, 512)) = 8: the hint is not combined with the
exponential term. -/
theorem c4_counterexample :
    (handle_rate_limit_error 10 ⟨2⟩ (some 3)).2.1 = 3 ∧
      max 3 (min (2 ^ 3) 512) = 8 ∧ (3 : Nat) ≠ 8 := by
  decide

/-- Claim C4, amended: handle_rate_limit_error increments the
consecutive-error counter; it sleeps the retry-after hint when a
nonzero hint is provided, and min(2 ^ errorCount, 512) otherwise (the
hint is used as given, not maxed with the exponential backoff); and it
returns true exactly when the incremented counter is still below the
configured retry ceiling. -/
theorem c4_amended_thm (maxRetries : Nat) (rl : RateLimiter)
    (hint : Option Nat) :
    (handle_rate_limit_error maxRetries rl hint).1.consecutive_errors =
        rl.consecutive_errors + 1 ∧
    (handle_rate_limit_error maxRetries rl none).2.1 =
        min (2 ^ (rl.consecutive_errors + 1)) 512 ∧
    (∀ h, h ≠ 0 →
        (handle_rate_limit_error maxRetries rl (some h)).2.1 = h) ∧
    ((handle_rate_limit_error maxRetries rl hint).2.2 = true ↔
        rl.consecutive_errors + 1 < maxRetries) := by
  refine ⟨rfl, rfl, fun h hh => ?_, by simp [handle_rate_limit_error]⟩
  simp [handle_rate_limit_error, waitTime, hh]

/-- Claim C4, witness for the amended theorem at a concrete input. -/
theorem c4_amended_witness :
    (3 : Nat) ≠ 0 ∧ (handle_rate_limit_error 10 ⟨2⟩ (some 3)).2.1 = 3 :=
  ⟨by decide, (c4_amended_thm 10 ⟨2⟩ (some 3)).2.2.1 3 (by decide)⟩

/-- Claim C5, counterexample.  The claim states that every sequence of
consecutive quota errors yields non-decreasing wait times.  A first
hint-free error waits min(2 ^ 1, 512) = 2 seconds, but a second error
carrying a retry-after hint of 1 waits only 1 second: a hinted wait can
undercut the preceding exponential wait. -/
theorem c5_counterexample :
    (handle_rate_limit_error 10 ⟨0⟩ none).2.1 = 2 ∧
    (handle_rate_limit_error 10
        (handle_rate_limit_error 10 ⟨0⟩ none).1 (some 1)).2.1 = 1 ∧
    ¬ ((handle_rate_limit_error 10 ⟨0⟩ none).2.1 ≤
        (handle_rate_limit_error 10
          (handle_rate_limit_error 10 ⟨0⟩ none).1 (some 1)).2.1) := by
  decide

/-- Claim C5, amended: in the absence of retry-after hints, consecutive
quota errors without an intervening success produce non-decreasing wait
times, capped at 512 seconds; and a success (reset_error_count) after
any number of errors resets the counter to zero, so the next hint-free
wait is again the base wait of the very first error. -/
theorem c5_amended_thm (maxRetries : Nat) :
    (∀ n m, n ≤ m → nthWait maxRetries n ≤ nthWait maxRetries m) ∧
    (∀ n, nthWait maxRetries n ≤ 512) ∧
    (∀ rl : RateLimiter,
      (handle_rate_limit_error maxRetries (reset_error_count rl) none).2.1 =
        nthWait maxRetries 0) := by
  refine ⟨fun n m hnm => ?_, fun n => ?_, fun rl => ?_⟩
  · rw [nthWait_eq, nthWait_eq]
    exact min_le_min (Nat.pow_le_pow_right (by omega) (by omega)) le_rfl
  · rw [nthWait_eq]; exact min_le_right _ _
  · simp [handle_rate_limit_error, waitTime, reset_error_count, nthWait_eq,
      errorsAfter_consecutive]

/-- Claim C5, witness for the amended theorem at concrete inputs. -/
theorem c5_amended_witness :
    (2 : Nat) ≤ 5 ∧ nthWait 10 2 ≤ nthWait 10 5 ∧
      (handle_rate_limit_error 10 (reset_error_count ⟨7⟩) none).2.1 =
        nthWait 10 0 :=
  ⟨by decide, (c5_amended_thm 10).1 2 5 (by decide), (c5_amended_thm 10).2.2 ⟨7⟩⟩

/-! ## Claims about the crawl state machine -/

/-- Claim C1, counterexample.  The claim states that when a message
fails its id is added to a recorded failedIds set.  The crawl state
(both in memory and as persisted by checkpoints) is identical after
failing message a and after failing message b, two distinct ids: a
failure only increments the numeric failed counter, so no component of
the state records which id failed, and a set containing exactly the
failed ids cannot be read off the state.  The source keeps no failedIds
set at all. -/
theorem c1_counterexample :
    stepMessage 50 (fun _ => 0) (freshRunState ["a", "b"]) "a" =
      stepMessage 50 (fun _ => 0) (freshRunState ["a", "b"]) "b" ∧
    (stepMessage 50 (fun _ => 0) (freshRunState ["a", "b"]) "a").failed = 1 ∧
    (stepMessage 50 (fun _ => 0) (freshRunState ["a", "b"]) "a").processed_ids
      = [] ∧
    "a" ≠ "b" := by
  decide

/-- Claim C1, amended: the crawl records successes per id and failures
only as a count.  On success the id is appended to processed_ids and
the downloaded counter increments; on failure processed_ids is
unchanged (the id is not recorded as processed) and only the failed
counter increments.  Since no failed-id set exists, the recorded
processed ids and the recorded failures cannot overlap. -/
theorem c1_amended_thm (interval : Nat) (outcome : String → Nat)
    (r : RunState) (msg_id : String) (h : msg_id ∉ r.processed_ids) :
    (outcome msg_id ≠ 0 →
      (stepMessage interval outcome r msg_id).processed_ids =
          r.processed_ids ++ [msg_id] ∧
      (stepMessage interval outcome r msg_id).downloaded = r.downloaded + 1 ∧
      (stepMessage interval outcome r msg_id).failed = r.failed) ∧
    (outcome msg_id = 0 →
      (stepMessage interval outcome r msg_id).processed_ids = r.processed_ids ∧
      (stepMessage interval outcome r msg_id).downloaded = r.downloaded ∧
      (stepMessage interval outcome r msg_id).failed = r.failed + 1) := by
  constructor <;> intro hts <;>
    simp [stepMessage_processed_ids, stepMessage_downloaded,
      stepMessage_failed, h, hts]

/-- Claim C1, witness for the amended theorem at a concrete input. -/
theorem c1_amended_witness :
    "m" ∉ (freshRunState ["m2"]).processed_ids ∧
    ((stepMessage 50 (fun _ => 1) (freshRunState ["m2"]) "m").processed_ids =
        (freshRunState ["m2"]).processed_ids ++ ["m"] ∧
      (stepMessage 50 (fun _ => 1) (freshRunState ["m2"]) "m").downloaded =
        (freshRunState ["m2"]).downloaded + 1 ∧
      (stepMessage 50 (fun _ => 1) (freshRunState ["m2"]) "m").failed =
        (freshRunState ["m2"]).failed) :=
  ⟨by decide,
    (c1_amended_thm 50 (fun _ => 1) (freshRunState ["m2"]) "m"
      (by decide)).1 (by decide)⟩


/-- Claim C3: resuming from a checkpoint with processedIds a, b and
discoveredIds a, b, c, d processes exactly c then d — the resume filter
yields [c, d], process_one_message is invoked exactly on c and d (the
transfer log), and the final processed set is a, b, c, d with a and b
untouched (they are never re-transferred, only retained). -/
theorem c3_thm (a b c d : String) (hnd : [a, b, c, d].Nodup)
    (interval : Nat) (outcome : String → Nat) (hsucc : ∀ m, outcome m ≠ 0) :
    resumeRemaining (c3Saved a b c d) = [c, d] ∧
    transferLog interval outcome (resumeRunState (c3Saved a b c d))
        (resumeRemaining (c3Saved a b c d)) = [c, d] ∧
    a ∉ transferLog interval outcome (resumeRunState (c3Saved a b c d))
        (resumeRemaining (c3Saved a b c d)) ∧
    b ∉ transferLog interval outcome (resumeRunState (c3Saved a b c d))
        (resumeRemaining (c3Saved a b c d)) ∧
    (runCrawl interval outcome (resumeRemaining (c3Saved a b c d))
        (resumeRunState (c3Saved a b c d))).processed_ids = [a, b, c, d] := by
  simp only [List.nodup_cons, List.mem_cons, List.not_mem_nil, or_false,
    List.nodup_nil, and_true, not_or] at hnd
  obtain ⟨⟨hab, hac, had⟩, ⟨hbc, hbd⟩, hcd, -⟩ := hnd
  have hres : resumeRemaining (c3Saved a b c d) = [c, d] := by
    simp [resumeRemaining, c3Saved, List.filter, Ne.symm hac, Ne.symm hbc,
      Ne.symm had, Ne.symm hbd]
  have hlog : transferLog interval outcome (resumeRunState (c3Saved a b c d))
      (resumeRemaining (c3Saved a b c d)) = [c, d] := by
    rw [hres]
    simp [transferLog, resumeRunState, c3Saved, stepMessage_processed_ids,
      hsucc, Ne.symm hac, Ne.symm hbc, Ne.symm had, Ne.symm hbd, Ne.symm hcd]
  refine ⟨hres, hlog, ?_, ?_, ?_⟩
  · rw [hlog]; simp [hac, had]
  · rw [hlog]; simp [hbc, hbd]
  · rw [hres]
    simp [runCrawl, resumeRunState, c3Saved, stepMessage_processed_ids,
      hsucc, Ne.symm hac, Ne.symm hbc, Ne.symm had, Ne.symm hbd, Ne.symm hcd]

/-- Claim C3, witness at concrete ids and a concrete outcome. -/
theorem c3_witness :
    ["a", "b", "c", "d"].Nodup ∧
    resumeRemaining (c3Saved "a" "b" "c" "d") = ["c", "d"] ∧
    transferLog 50 (fun _ => 5) (resumeRunState (c3Saved "a" "b" "c" "d"))
        (resumeRemaining (c3Saved "a" "b" "c" "d")) = ["c", "d"] :=
  ⟨by decide,
    (c3_thm "a" "b" "c" "d" (by decide) 50 (fun _ => 5)
      (fun _ => (by decide : (5 : Nat) ≠ 0))).1,
    (c3_thm "a" "b" "c" "d" (by decide) 50 (fun _ => 5)
      (fun _ => (by decide : (5 : Nat) ≠ 0))).2.1⟩


/-- Claim C6, counterexample.  The claim states that a crash right
after the 7th message leaves exactly 7 ids in the persisted processed
and failed sets.  The last checkpoint before the crash was written at
message 5 (checkpoint interval 5), so the persisted state holds only 5
processed ids and no failed ids (failures are persisted only as a
count, here 0): 5 is not 7, and the progress of messages 6 and 7 is
lost. -/
theorem c6_counterexample :
    c6crash.st.processed_message_ids.length = 5 ∧
    c6crash.st.messages_failed = 0 ∧
    c6crash.st.messages_processed = 5 ∧
    (5 : Nat) ≠ 7 := by
  decide

/-- Claim C6, amended: with 10 discovered ids, batch size 4 and
checkpoint interval 5, a crash immediately after the 7th message leaves
a persisted state from the checkpoint at message 5: exactly the first 5
ids recorded as processed, a processed counter of 5, and the backup
still marked in progress, so at most one checkpoint interval of
progress is lost. -/
theorem c6_amended_thm :
    c6crash.st.processed_message_ids = ["m1", "m2", "m3", "m4", "m5"] ∧
    c6crash.st.messages_processed = 5 ∧
    c6crash.st.messages_downloaded = 5 ∧
    c6crash.st.backup_in_progress = true := by
  decide

lemma checkpointSave_processed (r : RunState) :
    (checkpointSave r).processed_message_ids = lastN 1000 r.processed_ids := rfl

lemma checkpointSave_all (r : RunState) :
    (checkpointSave r).all_message_ids = r.st.all_message_ids := rfl

/-- Claim C10: every checkpoint persists at most 1000 processed ids —
exactly the most recent 1000 (a suffix of the insertion-ordered
processed set), the earlier ones being dropped; consequently, once more
than 1000 distinct messages have been processed, the earliest processed
id is missing from the persisted set and a resume puts it back into the
list of messages to process, treating it as unprocessed. -/
theorem c10_thm :
    (∀ r : RunState,
      (checkpointSave r).processed_message_ids.length ≤ 1000 ∧
      (checkpointSave r).processed_message_ids <:+ r.processed_ids) ∧
    (∀ (l : List String) (h : String), l.Nodup → l.head? = some h →
      1000 < l.length →
      (checkpointSave
        { freshRunState l with processed_ids := l }).processed_message_ids.length
          = 1000 ∧
      h ∉ (checkpointSave
        { freshRunState l with processed_ids := l }).processed_message_ids ∧
      h ∈ resumeRemaining (checkpointSave
        { freshRunState l with processed_ids := l })) := by
  constructor
  · intro r
    rw [checkpointSave_processed]
    constructor
    · rw [lastN, List.length_drop]; omega
    · exact List.drop_suffix _ _
  · intro l h hnd hhead hlen
    obtain ⟨t, rfl⟩ : ∃ t, l = h :: t := by
      cases l with
      | nil => simp at hhead
      | cons x t =>
          simp only [List.head?_cons, Option.some.injEq] at hhead
          exact ⟨t, by rw [hhead]⟩
    have hht : h ∉ t := (List.nodup_cons.mp hnd).1
    have hlt : 1000 ≤ t.length := by
      simpa [Nat.lt_succ_iff] using hlen
    have hdrop : lastN 1000 (h :: t) = t.drop (t.length - 1000) := by
      unfold lastN
      have heq : (h :: t).length - 1000 = (t.length - 1000) + 1 := by
        simp only [List.length_cons]; omega
      rw [heq, List.drop_succ_cons]
    have hnotmem : h ∉ lastN 1000 (h :: t) := by
      rw [hdrop]
      intro hmem
      exact hht (List.mem_of_mem_drop hmem)
    refine ⟨?_, ?_, ?_⟩
    · rw [checkpointSave_processed]
      show (lastN 1000 (h :: t)).length = 1000
      rw [lastN, List.length_drop, List.length_cons]
      omega
    · rw [checkpointSave_processed]
      exact hnotmem
    · rw [resumeRemaining, List.mem_filter, checkpointSave_all,
        checkpointSave_processed]
      refine ⟨?_, ?_⟩
      · show h ∈ h :: t
        exact List.mem_cons_self h t
      · show decide (h ∉ lastN 1000 (h :: t)) = true
        exact decide_eq_true hnotmem


/-- Claim C10, witness: after 1001 distinct processed ids, the
checkpoint persists exactly 1000 of them, the earliest one is dropped,
and the resume filter schedules it again. -/
theorem c10_witness :
    bigIdList.Nodup ∧ bigIdList.head? = some "" ∧ 1000 < bigIdList.length ∧
    (checkpointSave
      { freshRunState bigIdList with
          processed_ids := bigIdList }).processed_message_ids.length = 1000 ∧
    "" ∉ (checkpointSave
      { freshRunState bigIdList with
          processed_ids := bigIdList }).processed_message_ids ∧
    "" ∈ resumeRemaining (checkpointSave
      { freshRunState bigIdList with processed_ids := bigIdList }) := by
  have hinj : Function.Injective (fun n => String.mk (List.replicate n 'a')) := by
    intro m n hmn
    injection hmn with hd
    have := congrArg List.length hd
    simpa using this
  have hnd : bigIdList.Nodup := (List.nodup_range 1001).map hinj
  have hhead : bigIdList.head? = some "" := by
    rw [bigIdList, show (1001 : Nat) = 1000 + 1 from rfl,
      List.range_succ_eq_map]
    rfl
  have hlen : 1000 < bigIdList.length := by
    rw [bigIdList, List.length_map, List.length_range]
    omega
  obtain ⟨h1, h2, h3⟩ := c10_thm.2 bigIdList "" hnd hhead hlen
  exact ⟨hnd, hhead, hlen, h1, h2, h3⟩

/-! ## Claims about the transfer layer, indexer and search engine -/

/-- Claim C7: every record returned by search satisfies every provided
filter conjunctively (account equality, sender substring, subject
substring, inclusive date bounds, attachment flag, free-text match over
subject, sender, recipients and body excerpt), the result is ordered by
timestamp descending, and its length never exceeds the configured
limit. -/
theorem c7_thm (db : IndexStore) (f : SearchFilters) :
    (search_emails db f).length ≤ f.limit ∧
    List.Sorted dateGe (search_emails db f) ∧
    (∀ r ∈ search_emails db f,
      (∀ u, f.user_email = some u → u ≠ "" → r.user_email = u) ∧
      (∀ s, f.sender = some s → s ≠ "" → likeMatch r.sender s = true) ∧
      (∀ s, f.subject = some s → s ≠ "" → likeMatch r.subject s = true) ∧
      (∀ d, f.start_date = some d → dateStartMs d ≤ r.date) ∧
      (∀ d, f.end_date = some d → r.date ≤ dateStartMs d) ∧
      (∀ b, f.has_attachments = some b → r.has_attachments = b) ∧
      (∀ q, f.query = some q → q ≠ "" →
        (likeMatch r.subject q || likeMatch r.sender q ||
          likeMatch r.recipients q || likeMatch r.body_preview q) = true)) := by
  refine ⟨?_, ?_, ?_⟩
  · rw [search_emails]
    simp [List.length_take]
  · exact List.Pairwise.sublist (List.take_sublist _ _)
      (List.sorted_insertionSort dateGe _)
  · intro r hr
    have hr1 : r ∈ List.insertionSort dateGe (db.filter (matchesFilters f)) :=
      List.mem_of_mem_take hr
    have hr2 : r ∈ db.filter (matchesFilters f) :=
      (List.perm_insertionSort dateGe _).mem_iff.mp hr1
    have hm : matchesFilters f r = true := (List.mem_filter.mp hr2).2
    rw [matchesFilters] at hm
    simp only [Bool.and_eq_true] at hm
    obtain ⟨⟨⟨⟨⟨⟨hq, hu⟩, hsen⟩, hsub⟩, hsd⟩, hed⟩, hat⟩ := hm
    refine ⟨?_, ?_, ?_, ?_, ?_, ?_, ?_⟩
    · intro u hu0 hne
      rw [hu0] at hu
      simp only [decide_eq_true_eq] at hu
      rcases hu with h | h
      · exact absurd h hne
      · exact h
    · intro s hs0 hne
      rw [hs0] at hsen
      simp only [decide_eq_true_eq] at hsen
      rcases hsen with h | h
      · exact absurd h hne
      · exact h
    · intro s hs0 hne
      rw [hs0] at hsub
      simp only [decide_eq_true_eq] at hsub
      rcases hsub with h | h
      · exact absurd h hne
      · exact h
    · intro d hd0
      rw [hd0] at hsd
      simpa using hsd
    · intro d hd0
      rw [hd0] at hed
      simpa using hed
    · intro b hb0
      rw [hb0] at hat
      simpa using hat
    · intro q hq0 hne
      rw [hq0] at hq
      simp only [decide_eq_true_eq] at hq
      rcases hq with h | h
      · exact absurd h hne
      · exact h

/-- Claim C7, witness: with a sender filter alice and date range day 0
to day 2 over two records of which only one matches both, that record
is returned, the limit is respected, and its sender satisfies the
filter. -/
theorem c7_witness :
    c7recA ∈ search_emails [c7recA, c7recB] c7fil ∧
    (search_emails [c7recA, c7recB] c7fil).length ≤ c7fil.limit ∧
    likeMatch c7recA.sender "alice" = true :=
  ⟨by decide, (c7_thm [c7recA, c7recB] c7fil).1,
    ((c7_thm [c7recA, c7recB] c7fil).2.2 c7recA (by decide)).2.1 "alice"
      rfl (by decide)⟩

/-- Claim C8, counterexample.  The claim states that a record whose
timestamp falls anywhere on the end date, through the end of that day,
is returned.  A record timestamped one hour into day 5 is not returned
by a search with date range day 4 to day 5, because the end bound is
the millisecond timestamp of midnight at the start of the end date:
the record satisfies start-of-day-5 ≤ timestamp < start-of-day-6, yet
the result is empty. -/
theorem c8_counterexample :
    search_emails [c8rec] { start_date := some 4, end_date := some 5 } = [] ∧
    dateStartMs 5 ≤ c8rec.date ∧ c8rec.date < dateStartMs 6 ∧
    dateStartMs 4 ≤ c8rec.date := by
  decide

/-- Claim C8, amended: the date range is inclusive at the bound
instants — the start bound is midnight of the start date and the end
bound is midnight of the end date.  Every indexed record with
startMidnight ≤ timestamp ≤ endMidnight is returned (when the limit
accommodates the index), and every returned record satisfies those two
inequalities; records later than midnight on the end date are
excluded. -/
theorem c8_amended_thm (db : IndexStore) (ds de lim : Nat) :
    (∀ r ∈ db, dateStartMs ds ≤ r.date → r.date ≤ dateStartMs de →
      db.length ≤ lim →
      r ∈ search_emails db
        { start_date := some ds, end_date := some de, limit := lim }) ∧
    (∀ r ∈ search_emails db
        { start_date := some ds, end_date := some de, limit := lim },
      dateStartMs ds ≤ r.date ∧ r.date ≤ dateStartMs de) := by
  constructor
  · intro r hr h1 h2 hlim
    have hmf : matchesFilters
        { start_date := some ds, end_date := some de, limit := lim } r = true := by
      simp [matchesFilters, h1, h2]
    have hf : r ∈ db.filter (matchesFilters
        { start_date := some ds, end_date := some de, limit := lim }) :=
      List.mem_filter.mpr ⟨hr, hmf⟩
    have hsort : r ∈ List.insertionSort dateGe (db.filter (matchesFilters
        { start_date := some ds, end_date := some de, limit := lim })) :=
      (List.perm_insertionSort dateGe _).mem_iff.mpr hf
    have hlen : (List.insertionSort dateGe (db.filter (matchesFilters
        { start_date := some ds, end_date := some de,
          limit := lim }))).length ≤ lim := by
      rw [(List.perm_insertionSort dateGe _).length_eq]
      exact le_trans (List.length_filter_le _ _) hlim
    rw [search_emails]
    rw [List.take_of_length_le hlen]
    exact hsort
  · intro r hr
    have hr2 : r ∈ db.filter (matchesFilters
        { start_date := some ds, end_date := some de, limit := lim }) :=
      (List.perm_insertionSort dateGe _).mem_iff.mp (List.mem_of_mem_take hr)
    have hm := (List.mem_filter.mp hr2).2
    rw [matchesFilters] at hm
    simp only [Bool.and_eq_true, decide_eq_true_eq] at hm
    exact ⟨hm.1.1.2, hm.1.2⟩

/-- Claim C8, witness for the amended theorem: a record two hours into
the start date (day 4) lies within the instant bounds and is
returned. -/
theorem c8_amended_witness :
    dateStartMs 4 ≤ c8rec2.date ∧ c8rec2.date ≤ dateStartMs 5 ∧
    c8rec2 ∈ search_emails [c8rec2]
      { start_date := some 4, end_date := some 5, limit := 100 } :=
  ⟨by decide, by decide,
    (c8_amended_thm [c8rec2] 4 5 100).1 c8rec2 (by decide) (by decide)
      (by decide) (by decide)⟩

/-- Claim C9: when the transfer of a message succeeds but its raw
content fails to parse during indexing (parse_email_metadata returns
the empty dict and index_email returns without raising), the index is
left unchanged, no error reaches the crawl loop, process_one_message
still returns the nonzero timestamp, and the crawl therefore counts the
message as a success: its id is appended to processed_ids and the
downloaded counter increments, while the failed counter is
untouched. -/
theorem c9_thm (parse : Raw → Option EmailMeta) (subjOf : Raw → String)
    (ostore : ObjStore) (istore : IndexStore) (user mid : String) (raw : Raw)
    (ts interval : Nat) (r : RunState)
    (hraw : raw.isEmpty = false) (hts : ts ≠ 0) (hparse : parse raw = none)
    (hmem : mid ∉ r.processed_ids) :
    (process_one_message parse subjOf ostore istore user mid raw ts).1 = ts ∧
    (process_one_message parse subjOf ostore istore user mid raw ts).2.2 =
      istore ∧
    (stepMessage interval (fun _ => ts) r mid).processed_ids =
      r.processed_ids ++ [mid] ∧
    (stepMessage interval (fun _ => ts) r mid).downloaded = r.downloaded + 1 ∧
    (stepMessage interval (fun _ => ts) r mid).failed = r.failed := by
  refine ⟨?_, ?_, ?_, ?_, ?_⟩ <;>
    simp [process_one_message, dropbox_upload_to_team_folder, index_email,
      hraw, hparse, stepMessage_processed_ids, stepMessage_downloaded,
      stepMessage_failed, hmem, hts]

/-- Claim C9, witness at a concrete unparseable message. -/
theorem c9_witness :
    c9raw.isEmpty = false ∧ (1000 : Nat) ≠ 0 ∧
    (process_one_message (fun _ => none) (fun _ => "Sub") [] []
      "u@x.com" "m1" c9raw 1000).1 = 1000 ∧
    (process_one_message (fun _ => none) (fun _ => "Sub") [] []
      "u@x.com" "m1" c9raw 1000).2.2 = ([] : IndexStore) ∧
    (stepMessage 50 (fun _ => 1000) (freshRunState ["m2"]) "m1").processed_ids =
      (freshRunState ["m2"]).processed_ids ++ ["m1"] := by
  obtain ⟨h1, h2, h3, h4, h5⟩ :=
    c9_thm (fun _ => none) (fun _ => "Sub") [] [] "u@x.com" "m1" c9raw 1000 50
      (freshRunState ["m2"]) rfl (by decide) rfl (by decide)
  exact ⟨rfl, by decide, h1, h2, h3⟩

end HanniBackup
